import Mathlib

/-!
Shallow embedding of `src/dataset.rs` of lightgbm-rs: the `Dataset` wrapper
over the native LightGBM C API (matrix / file / dataframe ingestion, field
mutation, introspection).

The native engine is an external collaborator reached through six C entry
points.  It is modelled as a record of operations (`NativeEnv`) over an
abstract native state `σ`; each embedded Rust function threads that state and
also records the native calls it makes (`NativeCall`), so that properties of
the form "no native call is made before this error" and "the handle is freed
exactly once" are directly statable.  Rust panics (`%` by zero, `.unwrap()`,
`.expect()`, `panic!`) are modelled by the `Outcome.fatal` constructor;
recoverable `Err` returns by `Outcome.err`.

Machine integers are modelled as `Nat`/`Int` with explicit `i32` range
checks, matching the `usize -> i32` / `i32 -> usize` `try_into` conversions
of the source.  f64/f32 buffer elements are carried as Lean `Float`; the code
never computes with them, it only moves them and takes lengths.
-/

/-- Rust byte strings entering the C layer.  `CString::new` fails exactly when
the string has an embedded NUL byte; in UTF-8 a NUL byte occurs exactly where
the NUL character does. -/
def nulChar : Char := Char.ofNat 0

/-- Model of `std::ffi::CString::new`: `none` models `Err(NulError)`.  The
check runs over the string's character list (the byte-level NUL scan of the
real `CString::new` finds a NUL byte exactly where the character list has the
NUL character). -/
def cStringNew (s : String) : Option String :=
  if s.data.contains nulChar then none else some s

/-- `lightgbm_sys::C_API_DTYPE_FLOAT32`. -/
def C_API_DTYPE_FLOAT32 : Int := 0

/-- `lightgbm_sys::C_API_DTYPE_FLOAT64`. -/
def C_API_DTYPE_FLOAT64 : Int := 1

/-- One more than `i32::MAX`: a `usize` converts into an `i32` iff it is
below this bound. -/
def i32Bound : Nat := 2 ^ 31

/-- Model of `usize::try_into::<i32>()`. -/
def tryIntoI32 (n : Nat) : Option Int :=
  if n < i32Bound then some (n : Int) else none

/-- Model of `i32::try_into::<usize>()`: fails exactly on negative values. -/
def i32IntoUsize (v : Int) : Option Nat :=
  if 0 ≤ v then some v.toNat else none

/-- One call into the native layer, with its scalar arguments (the data
pointer argument is represented by the buffer length; the buffer itself is
passed to the `NativeEnv` operation). -/
inductive NativeCall where
  | createFromMat (data_len : Nat) (data_type : Int) (nrow ncol : Int)
      (is_row_major : Int) (params : String) (reference : Option Nat)
  | createFromFile (path : String) (params : String) (reference : Option Nat)
  | setField (handle : Nat) (field : String) (len : Int) (data_type : Int)
  | getNumData (handle : Nat)
  | getNumFeature (handle : Nat)
  | freeDataset (handle : Nat)
deriving DecidableEq, Repr

/-- Whether a native call is the field-set primitive (`LGBM_DatasetSetField`). -/
def NativeCall.isSetField : NativeCall → Bool
  | .setField _ _ _ _ => true
  | _ => false

/-- A Rust panic site of the source. -/
inductive FatalKind where
  | remainderByZero
  | unwrapFailed
  | freeFailed
  | nullValues (which : String)
deriving DecidableEq, Repr

/-- The recoverable errors (`lightgbm::Error`) the source constructs,
one constructor per distinct error message. -/
inductive LgbmError where
  | notMultipleOfNRows (n_rows : Nat)
  | rowsNotI32
  | colsNotI32
  | labelLenNotI32
  | weightsLenNotI32
  | cstringFailed
  | nativeCallFailed (call : NativeCall)
  | weightsCountMismatch (got : Nat) (records : Nat)
  | datasetLenNegative
  | featureCountNegative
  | polarsFailed
deriving DecidableEq, Repr

/-- What a Rust expression of type `Result<α>` can do: return `Ok`, return
`Err`, or abort the process (panic). -/
inductive Outcome (α : Type) where
  | ok (a : α)
  | err (e : LgbmError)
  | fatal (k : FatalKind)
deriving DecidableEq, Repr

/-- The native layer as an abstract collaborator: one operation per consumed
C entry point, each threading an abstract native state `σ`.  An allocation
returns `none` / `false` to model a non-success C status. -/
structure NativeEnv (σ : Type) where
  createFromMat : σ → (data : List Float) → (data_type : Int) → (nrow ncol : Int) →
      (is_row_major : Int) → (params : String) → (reference : Option Nat) → σ × Option Nat
  createFromFile : σ → (path : String) → (params : String) → (reference : Option Nat) →
      σ × Option Nat
  setField : σ → (handle : Nat) → (field : String) → (data : List Float) → (len : Int) →
      (data_type : Int) → σ × Bool
  getNumData : σ → (handle : Nat) → σ × Option Int
  getNumFeature : σ → (handle : Nat) → σ × Option Int
  freeDataset : σ → (handle : Nat) → σ × Bool

/-- `pub struct Dataset { pub(crate) handle: lightgbm_sys::DatasetHandle }`. -/
structure Dataset where
  handle : Nat
deriving DecidableEq, Repr

/-- Result of running one embedded operation: the native state afterwards,
the native calls made (in order), and the Rust-level outcome. -/
structure FfiResult (σ : Type) (α : Type) where
  state : σ
  calls : List NativeCall
  out : Outcome α
deriving DecidableEq, Repr

/-- The tail of `Dataset::from_mat` after the shape check (lines 91-137):
column-count derivation, the three `i32` range checks, the two `CString`
constructions, `LGBM_DatasetCreateFromMat`, wrapping of the handle, and
`LGBM_DatasetSetField("label")`.  On a set-field failure the `?` return
drops the freshly wrapped `Dataset`, running `LGBM_DatasetFree` (whose
failure the drop impl `.expect`s into a panic). -/
def from_mat_after_shape_check {σ : Type} (env : NativeEnv σ) (s : σ)
    (data : List Float) (n_rows : Nat) (label : List Float) : FfiResult σ Dataset :=
  let data_length := data.length
  let feature_length := if data_length = 0 ∧ n_rows = 0 then 0 else data_length / n_rows
  match tryIntoI32 n_rows with
  | none => ⟨s, [], .err .rowsNotI32⟩
  | some nrow =>
    match tryIntoI32 feature_length with
    | none => ⟨s, [], .err .colsNotI32⟩
    | some ncol =>
      match tryIntoI32 label.length with
      | none => ⟨s, [], .err .labelLenNotI32⟩
      | some label_len =>
        match cStringNew "" with
        | none => ⟨s, [], .err .cstringFailed⟩
        | some params =>
          match cStringNew "label" with
          | none => ⟨s, [], .err .cstringFailed⟩
          | some label_str =>
            let c₁ : NativeCall :=
              .createFromMat data_length C_API_DTYPE_FLOAT64 nrow ncol 1 params none
            match env.createFromMat s data C_API_DTYPE_FLOAT64 nrow ncol 1 params none with
            | (s₁, none) => ⟨s₁, [c₁], .err (.nativeCallFailed c₁)⟩
            | (s₁, some handle) =>
              -- the dataset is created immediately after the successful call,
              -- so the drop impl covers every later error path
              let dataset : Dataset := ⟨handle⟩
              let c₂ : NativeCall :=
                .setField handle label_str label_len C_API_DTYPE_FLOAT32
              match env.setField s₁ handle label_str label label_len C_API_DTYPE_FLOAT32 with
              | (s₂, true) => ⟨s₂, [c₁, c₂], .ok dataset⟩
              | (s₂, false) =>
                -- the `?` propagates the error; `dataset` goes out of scope
                -- and its drop impl frees the handle (panicking if that fails)
                match env.freeDataset s₂ handle with
                | (s₃, true) =>
                  ⟨s₃, [c₁, c₂, .freeDataset handle], .err (.nativeCallFailed c₂)⟩
                | (s₃, false) =>
                  ⟨s₃, [c₁, c₂, .freeDataset handle], .fatal .freeFailed⟩

/-- `Dataset::from_mat` (lines 83-138).  The guard mirrors Rust's
short-circuiting `(data_length != 0 || n_rows != 0) && data_length % n_rows != 0`:
when the left conjunct holds and `n_rows = 0`, the `%` operator aborts
(attempt to calculate the remainder with a divisor of zero). -/
def from_mat {σ : Type} (env : NativeEnv σ) (s : σ)
    (data : List Float) (n_rows : Nat) (label : List Float) : FfiResult σ Dataset :=
  let data_length := data.length
  if data_length ≠ 0 ∨ n_rows ≠ 0 then
    if n_rows = 0 then ⟨s, [], .fatal .remainderByZero⟩
    else if data_length % n_rows ≠ 0 then ⟨s, [], .err (.notMultipleOfNRows n_rows)⟩
    else from_mat_after_shape_check env s data n_rows label
  else from_mat_after_shape_check env s data n_rows label

/-- `Dataset::from_file` (lines 160-176). -/
def from_file {σ : Type} (env : NativeEnv σ) (s : σ) (file_path : String) :
    FfiResult σ Dataset :=
  match cStringNew file_path with
  | none => ⟨s, [], .err .cstringFailed⟩
  | some file_path_str =>
    match cStringNew "" with
    | none => ⟨s, [], .err .cstringFailed⟩
    | some params =>
      let c : NativeCall := .createFromFile file_path_str params none
      match env.createFromFile s file_path_str params none with
      | (s₁, none) => ⟨s₁, [c], .err (.nativeCallFailed c)⟩
      | (s₁, some handle) => ⟨s₁, [c], .ok ⟨handle⟩⟩

/-- `Dataset::n_rows` (lines 247-256): `LGBM_DatasetGetNumData` writes an
`i32`, converted into a `usize` (failing on a negative sentinel). -/
def n_rows {σ : Type} (env : NativeEnv σ) (s : σ) (ds : Dataset) : FfiResult σ Nat :=
  let c : NativeCall := .getNumData ds.handle
  match env.getNumData s ds.handle with
  | (s₁, none) => ⟨s₁, [c], .err (.nativeCallFailed c)⟩
  | (s₁, some result) =>
    match i32IntoUsize result with
    | none => ⟨s₁, [c], .err .datasetLenNegative⟩
    | some n => ⟨s₁, [c], .ok n⟩

/-- `Dataset::n_features` (lines 258-267). -/
def n_features {σ : Type} (env : NativeEnv σ) (s : σ) (ds : Dataset) : FfiResult σ Nat :=
  let c : NativeCall := .getNumFeature ds.handle
  match env.getNumFeature s ds.handle with
  | (s₁, none) => ⟨s₁, [c], .err (.nativeCallFailed c)⟩
  | (s₁, some result) =>
    match i32IntoUsize result with
    | none => ⟨s₁, [c], .err .featureCountNegative⟩
    | some n => ⟨s₁, [c], .ok n⟩

/-- `Dataset::set_weights` (lines 269-291): row-count query, length check,
`CString::new("weight").unwrap()` (a failure would panic), `i32` length
conversion, then `LGBM_DatasetSetField("weight", ..., FLOAT32)`. -/
def set_weights {σ : Type} (env : NativeEnv σ) (s : σ) (ds : Dataset)
    (weights : List Float) : FfiResult σ Unit :=
  match n_rows env s ds with
  | ⟨s₁, calls, .err e⟩ => ⟨s₁, calls, .err e⟩
  | ⟨s₁, calls, .fatal k⟩ => ⟨s₁, calls, .fatal k⟩
  | ⟨s₁, calls, .ok nr⟩ =>
    if nr ≠ weights.length then
      ⟨s₁, calls, .err (.weightsCountMismatch weights.length nr)⟩
    else
      match cStringNew "weight" with
      | none => ⟨s₁, calls, .fatal .unwrapFailed⟩
      | some field_name =>
        match tryIntoI32 weights.length with
        | none => ⟨s₁, calls, .err .weightsLenNotI32⟩
        | some len =>
          let c : NativeCall := .setField ds.handle field_name len C_API_DTYPE_FLOAT32
          match env.setField s₁ ds.handle field_name weights len C_API_DTYPE_FLOAT32 with
          | (s₂, true) => ⟨s₂, calls ++ [c], .ok ()⟩
          | (s₂, false) => ⟨s₂, calls ++ [c], .err (.nativeCallFailed c)⟩

/-! ### A concrete native environment

A reference instantiation of the abstract collaborator, used to evaluate the
embedded functions on concrete inputs: every call succeeds, handles are
allocated fresh, and the getters report the row/column counts given at
creation (the native engine derives both counts from the creation call). -/

/-- Bookkeeping state of the concrete native environment: the next fresh
handle and, per live handle, the `(nrow, ncol)` it was created with. -/
structure IdealState where
  next : Nat
  table : List (Nat × Int × Int)
deriving DecidableEq, Repr

/-- The always-succeeding native environment over `IdealState`. -/
def idealEnv : NativeEnv IdealState where
  createFromMat s _data _ty nrow ncol _maj _params _ref :=
    ({ next := s.next + 1, table := (s.next, nrow, ncol) :: s.table }, some s.next)
  createFromFile s _path _params _ref :=
    ({ next := s.next + 1, table := (s.next, 0, 0) :: s.table }, some s.next)
  setField s _h _f _data _len _ty := (s, true)
  getNumData s h := (s, (s.table.lookup h).map Prod.fst)
  getNumFeature s h := (s, (s.table.lookup h).map Prod.snd)
  freeDataset s _h := (s, true)

/-- Like `idealEnv`, except that the field-set primitive always reports
failure: exercises the label-attachment error path of `from_mat`. -/
def setFieldFailEnv : NativeEnv IdealState :=
  { idealEnv with setField := fun s _h _f _data _len _ty => (s, false) }

/-! ### The polars dataframe collaborator (feature `dataframe`)

`Dataset::from_dataframe` consumes a narrow slice of polars: select a column
by name, count its nulls, cast it to float, drop it in place, and iterate its
non-null values in row order.  A column is a named list of optional floats
(`none` models a polars null); the casts `cast::<Float32Type>` and
`cast::<Float64Type>` are carried as the identity on the numeric values
(the properties under verification never inspect the numeric narrowing),
preserving nulls. -/

/-- A polars `Series`: a named column. -/
structure Series where
  name : String
  values : List (Option Float)

/-- `Series::null_count`. -/
def Series.null_count (s : Series) : Nat := (s.values.filter fun v => v.isNone).length

/-- `ChunkedArray::into_no_null_iter`, collected in row order. -/
def Series.no_null_values (s : Series) : List Float := s.values.filterMap id

/-- A polars `DataFrame`: its columns in order. -/
structure DataFrame where
  columns : List Series

/-- `DataFrame::shape`: `(height, width)`. -/
def DataFrame.shape (df : DataFrame) : Nat × Nat :=
  (match df.columns.head? with | none => 0 | some c => c.values.length, df.columns.length)

/-- `DataFrame::select_series(name)` followed by `[0]`: the first column with
that name, `none` when the selection fails. -/
def DataFrame.select_series (df : DataFrame) (name : String) : Option Series :=
  df.columns.find? (fun c => c.name == name)

/-- `feature_values[row_idx].push(val)` for each value of one column:
appends the i-th value to the i-th row vector.  A polars frame is
rectangular, so the value list never outruns the row vectors (in Rust an
overrun would be an out-of-bounds index). -/
def pushColumn : List (List Float) → List Float → List (List Float)
  | r :: rs, v :: vs => (r ++ [v]) :: pushColumn rs vs
  | rows, [] => rows
  | [], _ => []

/-- The column loop of `from_dataframe` (lines 232-243): for each remaining
column in order, abort on any null, otherwise push the column's values into
the per-row vectors (`feature_values[row_idx].push(val)`). -/
def buildFeatureRows : List Series → List (List Float) → Outcome (List (List Float))
  | [], rows => .ok rows
  | series :: rest, rows =>
    if series.null_count ≠ 0 then .fatal (.nullValues "features")
    else buildFeatureRows rest (pushColumn rows series.no_null_values)

/-- `Dataset::from_dataframe` (lines 203-245) up to its final line.  Selects
and casts the label column, aborts on a null label, drops the label column in
place, materialises the label values, then assembles the per-row feature
vectors column by column (aborting on a null feature value).  The source's
final line delegates with `Self::from_mat(feature_values, label_values)`,
which does not match `from_mat(data: &[f64], n_rows: usize, label: &[f32])`
(it passes the per-row vectors where a flat buffer is expected and omits the
row count), so the model returns the two values the source hands to that
delegation. -/
def from_dataframe (df : DataFrame) (label_column : String) :
    Outcome (List (List Float) × List Float) :=
  let m := df.shape.1
  match df.select_series label_column with
  | none => .err .polarsFailed
  | some label_series =>
    if label_series.null_count ≠ 0 then .fatal (.nullValues "label")
    else
      let rest := df.columns.eraseP (fun c => c.name == label_column)
      let label_values := label_series.no_null_values
      match buildFeatureRows rest (List.replicate m []) with
      | .ok feature_values => .ok (feature_values, label_values)
      | .err e => .err e
      | .fatal k => .fatal k

/-! ### Helper lemmas -/

theorem cStringNew_empty : cStringNew "" = some "" := by decide

theorem cStringNew_label : cStringNew "label" = some "label" := by decide

theorem cStringNew_weight : cStringNew "weight" = some "weight" := by decide

theorem tryIntoI32_of_lt {n : Nat} (h : n < i32Bound) : tryIntoI32 n = some (n : Int) := by
  simp [tryIntoI32, h]

theorem tryIntoI32_of_ge {n : Nat} (h : i32Bound ≤ n) : tryIntoI32 n = none := by
  simp [tryIntoI32, Nat.not_lt.mpr h]

/-- When the buffer length and declared row count pass the divisibility gate
(either the degenerate empty case or a nonzero row count dividing the
length), `from_mat` continues with its range checks and construction. -/
theorem from_mat_passes_shape_check {σ : Type} (env : NativeEnv σ) (s : σ)
    (data : List Float) (n_rows : Nat) (label : List Float)
    (h : data.length = 0 ∧ n_rows = 0 ∨ n_rows ≠ 0 ∧ data.length % n_rows = 0) :
    from_mat env s data n_rows label = from_mat_after_shape_check env s data n_rows label := by
  unfold from_mat
  rcases h with ⟨h1, h2⟩ | ⟨h1, h2⟩
  · simp [h1, h2]
  · simp [h1, h2]

/-! ### The claims -/

/-- C1: refuted on the code.  With a nonzero-length buffer and declared row
count 0, the guard `(data_length != 0 || n_rows != 0) && data_length % n_rows != 0`
short-circuits its left disjunct to true and then evaluates
`data_length % 0`, which aborts (attempt to calculate the remainder with a
divisor of zero) instead of returning the shape-mismatch error the claim
requires for that case. -/
theorem c1_from_mat_zero_rows_nonzero_buffer_aborts :
    from_mat idealEnv ⟨0, []⟩ [1.0] 0 [] = ⟨⟨0, []⟩, [], .fatal .remainderByZero⟩ := by
  decide

/-- C4: in `from_mat` the row count, the derived column count, and the label
length are each checked to fit a 32-bit signed integer, in that order, and an
overflow returns its dedicated range error with the native state untouched
and no native call made (empty call trace). -/
theorem c4_from_mat_i32_range_checks_before_any_native_call {σ : Type}
    (env : NativeEnv σ) (s : σ) (data : List Float) (n_rows : Nat) (label : List Float)
    (hgate : data.length = 0 ∧ n_rows = 0 ∨ n_rows ≠ 0 ∧ data.length % n_rows = 0) :
    (i32Bound ≤ n_rows → from_mat env s data n_rows label = ⟨s, [], .err .rowsNotI32⟩) ∧
    (n_rows < i32Bound →
      i32Bound ≤ (if data.length = 0 ∧ n_rows = 0 then 0 else data.length / n_rows) →
      from_mat env s data n_rows label = ⟨s, [], .err .colsNotI32⟩) ∧
    (n_rows < i32Bound →
      (if data.length = 0 ∧ n_rows = 0 then 0 else data.length / n_rows) < i32Bound →
      i32Bound ≤ label.length →
      from_mat env s data n_rows label = ⟨s, [], .err .labelLenNotI32⟩) := by
  rw [from_mat_passes_shape_check env s data n_rows label hgate]
  unfold from_mat_after_shape_check
  refine ⟨fun h1 => ?_, fun h1 h2 => ?_, fun h1 h2 h3 => ?_⟩
  · simp [tryIntoI32_of_ge h1]
  · simp [tryIntoI32_of_lt h1, tryIntoI32_of_ge h2]
  · simp [tryIntoI32_of_lt h1, tryIntoI32_of_lt h2, tryIntoI32_of_ge h3]

/-- C4 witness: a declared row count of `2 ^ 31` overflows `i32` and
`from_mat` returns the dedicated row range error before any native call. -/
theorem c4_witness_row_count_overflow :
    from_mat idealEnv ⟨0, []⟩ [] (2 ^ 31) [] = ⟨⟨0, []⟩, [], .err .rowsNotI32⟩ :=
  (c4_from_mat_i32_range_checks_before_any_native_call idealEnv ⟨0, []⟩ [] (2 ^ 31) []
    (by decide)).1 (by decide)

/-- C2: in `from_mat`, when the dense-matrix allocation succeeds and the
subsequent label attachment fails, the label-attachment error is returned to
the caller and the allocated handle is released exactly once (the wrapping
`Dataset` is dropped as the error propagates, and its drop frees the
handle). -/
theorem c2_from_mat_label_failure_frees_handle_once {σ : Type}
    (env : NativeEnv σ) (s s₁ s₂ s₃ : σ) (data : List Float) (n_rows : Nat)
    (label : List Float) (hd : Nat)
    (hgate : data.length = 0 ∧ n_rows = 0 ∨ n_rows ≠ 0 ∧ data.length % n_rows = 0)
    (hr : n_rows < i32Bound)
    (hc : (if data.length = 0 ∧ n_rows = 0 then 0 else data.length / n_rows) < i32Bound)
    (hl : label.length < i32Bound)
    (hcreate : env.createFromMat s data C_API_DTYPE_FLOAT64 (n_rows : Int)
      (((if data.length = 0 ∧ n_rows = 0 then 0 else data.length / n_rows) : Nat) : Int)
      1 "" none = (s₁, some hd))
    (hset : env.setField s₁ hd "label" label ((label.length : Nat) : Int)
      C_API_DTYPE_FLOAT32 = (s₂, false))
    (hfree : env.freeDataset s₂ hd = (s₃, true)) :
    (from_mat env s data n_rows label).out =
      .err (.nativeCallFailed (.setField hd "label" ((label.length : Nat) : Int)
        C_API_DTYPE_FLOAT32)) ∧
    ((from_mat env s data n_rows label).calls.count (.freeDataset hd)) = 1 ∧
    (from_mat env s data n_rows label).state = s₃ := by
  rw [from_mat_passes_shape_check env s data n_rows label hgate]
  unfold from_mat_after_shape_check
  simp only [tryIntoI32_of_lt hr, tryIntoI32_of_lt hc, tryIntoI32_of_lt hl,
    cStringNew_empty, cStringNew_label, hcreate, hset, hfree]
  simp [List.count_cons]

/-- C2 witness: against a native environment whose field-set primitive always
fails, a concrete 1x2 matrix construction surfaces the label-attachment error
and the trace frees the allocated handle exactly once. -/
theorem c2_witness_concrete_label_failure :
    (from_mat setFieldFailEnv ⟨0, []⟩ [1.0, 2.0] 1 [0.5]).out =
      .err (.nativeCallFailed (.setField 0 "label" 1 C_API_DTYPE_FLOAT32)) ∧
    ((from_mat setFieldFailEnv ⟨0, []⟩ [1.0, 2.0] 1 [0.5]).calls.count (.freeDataset 0)) = 1 ∧
    (from_mat setFieldFailEnv ⟨0, []⟩ [1.0, 2.0] 1 [0.5]).state = ⟨1, [(0, 1, 2)]⟩ :=
  c2_from_mat_label_failure_frees_handle_once setFieldFailEnv ⟨0, []⟩ ⟨1, [(0, 1, 2)]⟩
    ⟨1, [(0, 1, 2)]⟩ ⟨1, [(0, 1, 2)]⟩ [1.0, 2.0] 1 [0.5] 0 (by decide) (by decide)
    (by decide) (by decide) (by decide) (by decide) (by decide)

/-- C3: for R*C = N, `from_mat` on a flat buffer of length N with declared
row count R and a label of length R succeeds against the reference native
environment, and the resulting dataset reports R rows and C columns via
`n_rows` / `n_features`; R = 0 with the zero-length buffer is the valid
degenerate empty case (reporting 0 rows and 0 columns). -/
theorem c3_from_mat_reports_R_rows_C_cols (s : IdealState) (R C : Nat)
    (data : List Float) (label : List Float)
    (hRC : data.length = R * C) (hdeg : R = 0 → C = 0) (hlab : label.length = R)
    (hR : R < i32Bound) (hC : C < i32Bound) :
    ∃ ds : Dataset,
      (from_mat idealEnv s data R label).out = .ok ds ∧
      (n_rows idealEnv (from_mat idealEnv s data R label).state ds).out = .ok R ∧
      (n_features idealEnv (from_mat idealEnv s data R label).state ds).out = .ok C := by
  have hgate : data.length = 0 ∧ R = 0 ∨ R ≠ 0 ∧ data.length % R = 0 := by
    rcases Nat.eq_zero_or_pos R with h0 | hpos
    · exact Or.inl ⟨by simp [hRC, h0, hdeg h0], h0⟩
    · exact Or.inr ⟨Nat.pos_iff_ne_zero.mp hpos, by simp [hRC]⟩
  have hfl : (if data.length = 0 ∧ R = 0 then 0 else data.length / R) = C := by
    rcases Nat.eq_zero_or_pos R with h0 | hpos
    · simp [hRC, h0, hdeg h0]
    · have hne := Nat.pos_iff_ne_zero.mp hpos
      simp [hRC, hne, Nat.mul_div_cancel_left C hpos]
  have hL : label.length < i32Bound := by omega
  have key : from_mat idealEnv s data R label =
      ⟨⟨s.next + 1, (s.next, (R : Int), (C : Int)) :: s.table⟩,
        [.createFromMat data.length C_API_DTYPE_FLOAT64 (R : Int) (C : Int) 1 "" none,
          .setField s.next "label" (label.length : Int) C_API_DTYPE_FLOAT32],
        .ok ⟨s.next⟩⟩ := by
    rw [from_mat_passes_shape_check _ _ _ _ _ hgate]
    unfold from_mat_after_shape_check
    simp only [hfl, tryIntoI32_of_lt hR, tryIntoI32_of_lt hC, tryIntoI32_of_lt hL,
      cStringNew_empty, cStringNew_label, idealEnv]
  refine ⟨⟨s.next⟩, ?_, ?_, ?_⟩
  · rw [key]
  · rw [key]
    unfold n_rows
    simp [idealEnv, i32IntoUsize, List.lookup]
  · rw [key]
    unfold n_features
    simp [idealEnv, i32IntoUsize, List.lookup]

/-- C3 witness: the documentation example's 5x4 matrix with a 5-element label
constructs successfully and reports 5 rows and 4 features. -/
theorem c3_witness_doc_example_5x4 :
    ∃ ds : Dataset,
      (from_mat idealEnv ⟨0, []⟩
        [1.0, 0.1, 0.2, 0.1, 0.7, 0.4, 0.5, 0.1, 0.9, 0.8, 0.5, 0.1,
          0.2, 0.2, 0.8, 0.7, 0.1, 0.7, 1.0, 0.9] 5 [0.0, 0.0, 0.0, 1.0, 1.0]).out = .ok ds ∧
      (n_rows idealEnv
        (from_mat idealEnv ⟨0, []⟩
          [1.0, 0.1, 0.2, 0.1, 0.7, 0.4, 0.5, 0.1, 0.9, 0.8, 0.5, 0.1,
            0.2, 0.2, 0.8, 0.7, 0.1, 0.7, 1.0, 0.9] 5 [0.0, 0.0, 0.0, 1.0, 1.0]).state ds).out =
        .ok 5 ∧
      (n_features idealEnv
        (from_mat idealEnv ⟨0, []⟩
          [1.0, 0.1, 0.2, 0.1, 0.7, 0.4, 0.5, 0.1, 0.9, 0.8, 0.5, 0.1,
            0.2, 0.2, 0.8, 0.7, 0.1, 0.7, 1.0, 0.9] 5 [0.0, 0.0, 0.0, 1.0, 1.0]).state ds).out =
        .ok 4 :=
  c3_from_mat_reports_R_rows_C_cols ⟨0, []⟩ 5 4
    [1.0, 0.1, 0.2, 0.1, 0.7, 0.4, 0.5, 0.1, 0.9, 0.8, 0.5, 0.1,
      0.2, 0.2, 0.8, 0.7, 0.1, 0.7, 1.0, 0.9] [0.0, 0.0, 0.0, 1.0, 1.0]
    (by decide) (by decide) (by decide) (by decide) (by decide)

/-- The row-count query makes exactly one native call, the row-count
getter. -/
theorem n_rows_calls {σ : Type} (env : NativeEnv σ) (s : σ) (ds : Dataset) :
    (n_rows env s ds).calls = [.getNumData ds.handle] := by
  unfold n_rows
  rcases env.getNumData s ds.handle with ⟨s₁, _ | v⟩
  · rfl
  · rcases h : i32IntoUsize v with _ | n <;> simp [h]

/-- C5: `set_weights` with a slice whose length differs from the current row
count returns the length-mismatch error without having invoked the native
field-set primitive; with a slice of exactly that length it invokes the
field-set primitive with field name "weight" and the 32-bit-float element
type, and succeeds when that native call succeeds. -/
theorem c5_set_weights_length_gate {σ : Type} (env : NativeEnv σ) (s : σ)
    (ds : Dataset) (weights : List Float) (R : Nat)
    (hok : (n_rows env s ds).out = .ok R) :
    (weights.length ≠ R →
      (set_weights env s ds weights).out = .err (.weightsCountMismatch weights.length R) ∧
      ∀ c ∈ (set_weights env s ds weights).calls, c.isSetField = false) ∧
    (weights.length = R → R < i32Bound →
      (set_weights env s ds weights).calls =
        [.getNumData ds.handle,
          .setField ds.handle "weight" (weights.length : Int) C_API_DTYPE_FLOAT32] ∧
      (∀ s₂ : σ, env.setField (n_rows env s ds).state ds.handle "weight" weights
          (weights.length : Int) C_API_DTYPE_FLOAT32 = (s₂, true) →
        (set_weights env s ds weights).out = .ok ())) := by
  have hcl := n_rows_calls env s ds
  rcases hn : n_rows env s ds with ⟨s₁, cl, o⟩
  rw [hn] at hok hcl
  simp only at hok hcl
  subst hok
  subst hcl
  constructor
  · intro hne
    unfold set_weights
    rw [hn]
    dsimp only
    rw [if_pos (Ne.symm hne)]
    simp [NativeCall.isSetField]
  · intro heq hRb
    have hne : ¬ (R ≠ weights.length) := by omega
    unfold set_weights
    rw [hn]
    dsimp only
    rw [if_neg hne, cStringNew_weight, tryIntoI32_of_lt (heq ▸ hRb)]
    dsimp only
    rcases env.setField s₁ ds.handle "weight" weights (weights.length : Int)
        C_API_DTYPE_FLOAT32 with ⟨s₂, b⟩
    rcases b
    · exact ⟨rfl, fun s₂' hyp => by simp at hyp⟩
    · exact ⟨rfl, fun s₂' hyp => rfl⟩

/-- C5 witness: a dataset with 5 rows rejects a 4-element weight slice with
the length-mismatch error, and the trace contains no field-set call. -/
theorem c5_witness_four_weights_against_five_rows :
    (set_weights idealEnv ⟨1, [(0, 5, 4)]⟩ ⟨0⟩ [0.5, 1.0, 2.0, 0.5]).out =
      .err (.weightsCountMismatch 4 5) ∧
    ∀ c ∈ (set_weights idealEnv ⟨1, [(0, 5, 4)]⟩ ⟨0⟩ [0.5, 1.0, 2.0, 0.5]).calls,
      c.isSetField = false :=
  (c5_set_weights_length_gate idealEnv ⟨1, [(0, 5, 4)]⟩ ⟨0⟩ [0.5, 1.0, 2.0, 0.5] 5
    (by decide)).1 (by decide)

theorem i32Bound_eq : i32Bound = 2147483648 := by norm_num [i32Bound]

/-- C8: `from_file` on a path with an embedded NUL returns the encoding
error with no native call made and the native state untouched; on a NUL-free
path it makes exactly one native create-from-file call, with the empty
parameter string and no reference dataset, performs no field-setting step,
and wraps the returned handle on success. -/
theorem c8_from_file_path_check_and_single_create {σ : Type} (env : NativeEnv σ)
    (s : σ) (path : String) :
    (path.data.contains nulChar = true →
      from_file env s path = ⟨s, [], .err .cstringFailed⟩) ∧
    (path.data.contains nulChar = false →
      (from_file env s path).calls = [.createFromFile path "" none] ∧
      (∀ c ∈ (from_file env s path).calls, c.isSetField = false) ∧
      (∀ (s₁ : σ) (hd : Nat), env.createFromFile s path "" none = (s₁, some hd) →
        from_file env s path = ⟨s₁, [.createFromFile path "" none], .ok ⟨hd⟩⟩)) := by
  constructor
  · intro hnul
    replace hnul : nulChar ∈ path.data := by simpa using hnul
    unfold from_file
    simp [cStringNew, hnul]
  · intro hnul
    replace hnul : nulChar ∉ path.data := by simpa using hnul
    have hp : cStringNew path = some path := by simp [cStringNew, hnul]
    unfold from_file
    rw [hp, cStringNew_empty]
    dsimp only
    rcases env.createFromFile s path "" none with ⟨s₁, _ | hd⟩
    · refine ⟨rfl, ?_, ?_⟩
      · simp [NativeCall.isSetField]
      · intro s₁' hd' hyp
        simp at hyp
    · refine ⟨rfl, ?_, ?_⟩
      · simp [NativeCall.isSetField]
      · intro s₁' hd' hyp
        injection hyp with h1 h2
        injection h2 with h3
        subst h1
        subst h3
        rfl

/-- C9: once the length-equality check of `set_weights` against the row
count has passed, the conversion of the weights length to an `i32` cannot
fail, because the row count itself came from the native layer's `i32`
row-count value (the hypothesis states that contract): `set_weights` never
returns the weights-length range error. -/
theorem c9_set_weights_len_conversion_unreachable {σ : Type} (env : NativeEnv σ)
    (s : σ) (ds : Dataset) (weights : List Float)
    (hi32 : ∀ (s₁ : σ) (v : Int), env.getNumData s ds.handle = (s₁, some v) →
      v < (i32Bound : Int)) :
    (set_weights env s ds weights).out ≠ .err .weightsLenNotI32 := by
  unfold set_weights n_rows
  rcases hg : env.getNumData s ds.handle with ⟨s₁, _ | v⟩
  · simp
  · have hv := hi32 s₁ v hg
    dsimp only
    rcases hiu : i32IntoUsize v with _ | n
    · simp
    · dsimp only
      by_cases hne : n ≠ weights.length
      · simp [hne]
      · push_neg at hne
        rw [if_neg (by omega), cStringNew_weight]
        have hn : n = v.toNat ∧ 0 ≤ v := by
          unfold i32IntoUsize at hiu
          by_cases h0 : 0 ≤ v
          · simp [h0] at hiu
            exact ⟨hiu.symm, h0⟩
          · simp [h0] at hiu
        have hlen : weights.length < i32Bound := by
          have hb : (i32Bound : Int) = 2147483648 := by rw [i32Bound_eq]; norm_num
          rw [i32Bound_eq]
          rw [hb] at hv
          omega
        rw [tryIntoI32_of_lt hlen]
        dsimp only
        rcases env.setField s₁ ds.handle "weight" weights (weights.length : Int)
            C_API_DTYPE_FLOAT32 with ⟨s₂, b⟩
        rcases b <;> simp

/-- The tail of `from_mat` can fail for many reasons, but never with the
encoding error: its only strings are the literals "" and "label". -/
theorem from_mat_after_shape_check_out_ne_cstringFailed {σ : Type}
    (env : NativeEnv σ) (s : σ) (data : List Float) (n_rows : Nat)
    (label : List Float) :
    (from_mat_after_shape_check env s data n_rows label).out ≠ .err .cstringFailed := by
  unfold from_mat_after_shape_check
  dsimp only
  rw [cStringNew_empty, cStringNew_label]
  rcases tryIntoI32 n_rows with _ | nrow
  · simp
  · rcases tryIntoI32 (if data.length = 0 ∧ n_rows = 0 then 0 else data.length / n_rows)
        with _ | ncol
    · simp
    · rcases tryIntoI32 label.length with _ | ll
      · simp
      · dsimp only
        rcases env.createFromMat s data C_API_DTYPE_FLOAT64 nrow ncol 1 "" none with ⟨s₁, _ | hd⟩
        · simp
        · dsimp only
          rcases env.setField s₁ hd "label" label ll C_API_DTYPE_FLOAT32 with ⟨s₂, b⟩
          rcases b
          · rcases hf : env.freeDataset s₂ hd with ⟨s₃, b'⟩
            simp only [hf]
            rcases b' <;> simp
          · simp

/-- C10: the fixed literals "", "label" and "weight" have no embedded NUL,
so their native-string constructions always succeed; hence `from_mat` can
never return the encoding error, `from_file` cannot return it for a NUL-free
path (its only other string is the empty parameter literal), and the unwrap
on the "weight" field name in `set_weights` can never abort. -/
theorem c10_literal_cstrings_never_fail {σ : Type} (env : NativeEnv σ) (s : σ)
    (ds : Dataset) (data : List Float) (nrows : Nat) (label : List Float)
    (weights : List Float) :
    cStringNew "" = some "" ∧ cStringNew "label" = some "label" ∧
    cStringNew "weight" = some "weight" ∧
    (from_mat env s data nrows label).out ≠ .err .cstringFailed ∧
    (∀ path : String, path.data.contains nulChar = false →
      (from_file env s path).out ≠ .err .cstringFailed) ∧
    (set_weights env s ds weights).out ≠ .fatal .unwrapFailed := by
  refine ⟨cStringNew_empty, cStringNew_label, cStringNew_weight, ?_, ?_, ?_⟩
  · unfold from_mat
    dsimp only
    by_cases hg : data.length ≠ 0 ∨ nrows ≠ 0
    · rw [if_pos hg]
      by_cases h0 : nrows = 0
      · rw [if_pos h0]
        simp
      · rw [if_neg h0]
        by_cases hm : data.length % nrows ≠ 0
        · rw [if_pos hm]
          simp
        · rw [if_neg hm]
          exact from_mat_after_shape_check_out_ne_cstringFailed env s data nrows label
    · rw [if_neg hg]
      exact from_mat_after_shape_check_out_ne_cstringFailed env s data nrows label
  · intro path hnul
    replace hnul : nulChar ∉ path.data := by simpa using hnul
    have hp : cStringNew path = some path := by simp [cStringNew, hnul]
    unfold from_file
    rw [hp, cStringNew_empty]
    dsimp only
    rcases env.createFromFile s path "" none with ⟨s₁, _ | hd⟩ <;> simp
  · unfold set_weights n_rows
    rcases env.getNumData s ds.handle with ⟨s₁, _ | v⟩
    · simp
    · dsimp only
      rcases i32IntoUsize v with _ | n
      · simp
      · dsimp only
        by_cases hne : n ≠ weights.length
        · simp [hne]
        · push_neg at hne
          rw [if_neg (by omega), cStringNew_weight]
          dsimp only
          rcases tryIntoI32 weights.length with _ | len
          · simp
          · dsimp only
            rcases env.setField s₁ ds.handle "weight" weights len C_API_DTYPE_FLOAT32
                with ⟨s₂, b⟩
            rcases b <;> simp

/-- C9 witness: against the reference environment (whose row-count getter
reports the stored `i32` value), `set_weights` on a concrete 5-row dataset
never surfaces the weights-length range error. -/
theorem c9_witness_concrete_five_rows :
    (set_weights idealEnv ⟨1, [(0, 5, 4)]⟩ ⟨0⟩ [0.5, 1.0, 2.0, 0.5, 0.5]).out ≠
      .err .weightsLenNotI32 :=
  c9_set_weights_len_conversion_unreachable idealEnv ⟨1, [(0, 5, 4)]⟩ ⟨0⟩
    [0.5, 1.0, 2.0, 0.5, 0.5] (by
      intro s₁ v hg
      have h2 : some (5 : Int) = some v := congrArg Prod.snd hg
      rw [i32Bound_eq]
      injection h2 with h3
      omega)

/-- C7: in `from_dataframe` a missing value is fatal (an unconditional
abort, not a returned error), and the per-column null check fires before
that column or any later column is assembled and before any native call
could be reached: a null in the label column aborts with the label message;
once the label is null-free, the first remaining column holding a null
aborts the column loop with the features message regardless of what the
later columns hold (the delegation, the only point at which native calls
would happen, is never reached). -/
theorem c7_from_dataframe_null_values_abort (df : DataFrame) (label_column : String) :
    (∀ ls, df.select_series label_column = some ls → ls.null_count ≠ 0 →
      from_dataframe df label_column = .fatal (.nullValues "label")) ∧
    (∀ (pre : List Series) (sc : Series) (post : List Series) (rows : List (List Float)),
      (∀ c ∈ pre, c.null_count = 0) → sc.null_count ≠ 0 →
      buildFeatureRows (pre ++ sc :: post) rows = .fatal (.nullValues "features")) ∧
    (∀ ls (pre : List Series) (sc : Series) (post : List Series),
      df.select_series label_column = some ls → ls.null_count = 0 →
      df.columns.eraseP (fun c => c.name == label_column) = pre ++ sc :: post →
      (∀ c ∈ pre, c.null_count = 0) → sc.null_count ≠ 0 →
      from_dataframe df label_column = .fatal (.nullValues "features")) := by
  have hbuild : ∀ (pre : List Series) (sc : Series) (post : List Series)
      (rows : List (List Float)),
      (∀ c ∈ pre, c.null_count = 0) → sc.null_count ≠ 0 →
      buildFeatureRows (pre ++ sc :: post) rows = .fatal (.nullValues "features") := by
    intro pre
    induction pre with
    | nil =>
      intro sc post rows _ hnull
      simp [buildFeatureRows, hnull]
    | cons c cs ih =>
      intro sc post rows hpre hnull
      have hc : c.null_count = 0 := hpre c (List.mem_cons_self c cs)
      simp only [List.cons_append, buildFeatureRows, hc]
      rw [if_neg (by omega)]
      exact ih sc post _ (fun x hx => hpre x (List.mem_cons_of_mem c hx)) hnull
  refine ⟨?_, hbuild, ?_⟩
  · intro ls hsel hnull
    unfold from_dataframe
    rw [hsel]
    dsimp only
    rw [if_pos hnull]
  · intro ls pre sc post hsel hok herase hpre hnull
    unfold from_dataframe
    rw [hsel]
    dsimp only
    rw [if_neg (by omega), herase, hbuild pre sc post _ hpre hnull]

/-- C6 (evidence): on the documentation example's frame, `from_dataframe`
reaches its final delegation holding the per-row feature vectors (a list of
five row vectors, not a flat buffer) together with the five label values;
these are exactly the two arguments of the source's closing
`Self::from_mat(feature_values, label_values)` call, which does not fit
`from_mat(data: &[f64], n_rows: usize, label: &[f32])`. -/
theorem c6_doc_frame_assembled_arguments :
    from_dataframe (DataFrame.mk [
      ⟨"feature_1", [some 1.0, some 0.7, some 0.9, some 0.2, some 0.1]⟩,
      ⟨"feature_2", [some 0.1, some 0.4, some 0.8, some 0.2, some 0.7]⟩,
      ⟨"feature_3", [some 0.2, some 0.5, some 0.5, some 0.1, some 0.1]⟩,
      ⟨"feature_4", [some 0.1, some 0.1, some 0.1, some 0.7, some 0.9]⟩,
      ⟨"label", [some 0.0, some 0.0, some 0.0, some 1.0, some 1.0]⟩]) "label" =
    .ok ([[1.0, 0.1, 0.2, 0.1], [0.7, 0.4, 0.5, 0.1], [0.9, 0.8, 0.5, 0.1],
      [0.2, 0.2, 0.1, 0.7], [0.1, 0.7, 0.1, 0.9]], [0.0, 0.0, 0.0, 1.0, 1.0]) := rfl
